import Mathlib

/-!
Shallow embedding of the coin-analysis price/indicator core.

Sources embedded:
* `src/api/technical_analysis.py` (class `TechnicalAnalysis`)
* `src/api/unified_price_service.py` (class `UnifiedPriceService`)
* `src/api/portfolio_service.py` (class `PortfolioService`)

Modelling conventions:
* Python floats are modelled as rationals (`ℚ`).
* Python `None` / nullable numbers are modelled as `Option`.
* Python `round(x, n)` is modelled as rounding `x * 10^n` to the nearest
  integer (`round2` / `round4` below); exact tie behaviour of binary
  floating point is not modelled, only nearest-integer rounding.
* Python `x ** 0.5` (square root) is not rational, so functions that need it
  take an explicit `sqrtFn : ℚ → ℚ` argument; theorems constrain `sqrtFn`'s
  value at the point of use (nonnegative, squares back to the radicand).
* Python truthiness tests on nullable numbers (`if x:`) are modelled by
  `truthy`, which is `false` exactly on `None` and on the number `0`.
* `await`ed adapter calls are modelled by passing each adapter's outcome
  (`Except errorMessage result`) as an explicit argument.
-/

namespace CoinAnalysis

/-- Model of Python `round(x, 2)`: round to 2 decimal places. -/
def round2 (q : ℚ) : ℚ := (round (q * 100) : ℚ) / 100

/-- Model of Python `round(x, 4)`: round to 4 decimal places. -/
def round4 (q : ℚ) : ℚ := (round (q * 10000) : ℚ) / 10000

/-- Python truthiness of a nullable number: `None` and `0` are falsy. -/
def truthy (o : Option ℚ) : Bool :=
  match o with
  | none => false
  | some v => decide (v ≠ 0)

/-! ## `technical_analysis.py` — class `TechnicalAnalysis` -/

/-- One OHLCV candle as consumed by `TechnicalAnalysis`: only `close`
(required key) and `volume` (optional key, `candle.get('volume', 0)`) are
read by the embedded code. -/
structure Candle where
  close : ℚ
  volume : Option ℚ
deriving DecidableEq, Repr

/-- The `historical_data` dict: only its `data` list of candles is read. -/
structure HistoricalData where
  data : List Candle
deriving DecidableEq, Repr

/-- Source `_get_closes`: extract close prices. -/
def get_closes (h : HistoricalData) : List ℚ := h.data.map (·.close)

/-- Body of `calculate_sma` after the length guard:
`sum(values[-period:]) / period` (for `1 ≤ period ≤ len`, the Python slice
`values[-period:]` is the last `period` elements). -/
def smaD (values : List ℚ) (period : ℕ) : ℚ :=
  (values.drop (values.length - period)).sum / (period : ℚ)

/-- Source `calculate_sma`: `None` below the window, else mean of the last
`period` values. -/
def calculate_sma (values : List ℚ) (period : ℕ) : Option ℚ :=
  if values.length < period then none else some (smaD values period)

/-- One step of the EMA loop: `ema = (price - ema) * multiplier + ema`. -/
def emaStep (multiplier ema price : ℚ) : ℚ := (price - ema) * multiplier + ema

/-- Body of `calculate_ema` after the length guard: seed with the SMA of the
first `period` values, then fold the remaining values through `emaStep`. -/
def emaD (values : List ℚ) (period : ℕ) : ℚ :=
  let multiplier : ℚ := 2 / ((period : ℚ) + 1)
  let seed : ℚ := (values.take period).sum / (period : ℚ)
  (values.drop period).foldl (emaStep multiplier) seed

/-- Source `calculate_ema`: `None` below the window, else the seeded
recurrence. -/
def calculate_ema (values : List ℚ) (period : ℕ) : Option ℚ :=
  if values.length < period then none else some (emaD values period)

/-- The `moving_averages` record returned by `calculate_moving_averages`. -/
structure MovingAverages where
  sma_20 : Option ℚ
  sma_50 : Option ℚ
  sma_200 : Option ℚ
  ema_12 : Option ℚ
  ema_26 : Option ℚ
deriving DecidableEq, Repr

/-- Source `calculate_moving_averages`. -/
def calculate_moving_averages (closes : List ℚ) : MovingAverages :=
  { sma_20 := calculate_sma closes 20
    sma_50 := calculate_sma closes 50
    sma_200 := calculate_sma closes 200
    ema_12 := calculate_ema closes 12
    ema_26 := calculate_ema closes 26 }

/-- The RSI record: nullable value plus signal tag. -/
structure RsiRecord where
  value : Option ℚ
  signal : String
deriving DecidableEq, Repr

/-- Source `calculate_rsi` (default period 14). -/
def calculate_rsi (closes : List ℚ) (period : ℕ := 14) : RsiRecord :=
  if closes.length < period + 1 then { value := none, signal := "neutral" }
  else
    let changes := List.zipWith (fun a b => a - b) closes.tail closes
    let gains := changes.map (fun c => if c > 0 then c else 0)
    let losses := changes.map (fun c => if c < 0 then |c| else 0)
    let avg_gain := (gains.drop (gains.length - period)).sum / (period : ℚ)
    let avg_loss := (losses.drop (losses.length - period)).sum / (period : ℚ)
    let rsi_value : ℚ :=
      if avg_loss = 0 then 100 else 100 - 100 / (1 + avg_gain / avg_loss)
    let signal :=
      if rsi_value > 70 then "overbought"
      else if rsi_value < 30 then "oversold"
      else "neutral"
    { value := some (round2 rsi_value), signal := signal }

/-- The MACD record: three nullable numbers plus signal tag. -/
structure MacdRecord where
  macd_line : Option ℚ
  signal_line : Option ℚ
  histogram : Option ℚ
  signal : String
deriving DecidableEq, Repr

/-- The all-null MACD record returned below the 26-candle window. -/
def macdNull : MacdRecord :=
  { macd_line := none, signal_line := none, histogram := none, signal := "neutral" }

/-- Source loop `for i in range(26, len(closes) + 1)` building `macd_values`:
recompute EMA(12) and EMA(26) on every prefix, keep the difference when both
are truthy (`if ema12 and ema26:`). -/
def macdPrefixValues (closes : List ℚ) : List ℚ :=
  (List.range' 26 (closes.length + 1 - 26)).filterMap fun i =>
    let e12 := calculate_ema (closes.take i) 12
    let e26 := calculate_ema (closes.take i) 26
    if truthy e12 && truthy e26 then some (e12.getD 0 - e26.getD 0) else none

/-- Source `calculate_macd`. Note the Python truthiness tests
`if signal_line else None` / `if signal_line else 0`: a signal line whose
numeric value is exactly `0` is treated like a missing one. -/
def calculate_macd (closes : List ℚ) : MacdRecord :=
  if closes.length < 26 then macdNull
  else
    match calculate_ema closes 12, calculate_ema closes 26 with
    | some ema_12, some ema_26 =>
      let macd_line := ema_12 - ema_26
      let macd_values := macdPrefixValues closes
      let signal_line : ℚ :=
        if 9 ≤ macd_values.length then emaD macd_values 9 else macd_line
      let histogram : ℚ := if signal_line ≠ 0 then macd_line - signal_line else 0
      let signal :=
        if macd_line > signal_line ∧ histogram > 0 then "bullish"
        else if macd_line < signal_line ∧ histogram < 0 then "bearish"
        else "neutral"
      { macd_line := some (round2 macd_line)
        signal_line := if signal_line ≠ 0 then some (round2 signal_line) else none
        histogram := some (round2 histogram)
        signal := signal }
    | _, _ => macdNull

/-- The Bollinger-bands record. -/
structure BollingerRecord where
  upper : Option ℚ
  middle : Option ℚ
  lower : Option ℚ
  bandwidth : Option ℚ
deriving DecidableEq, Repr

/-- Population variance over the trailing `period` closes, as computed in
`calculate_bollinger_bands`. -/
def bollingerVariance (closes : List ℚ) (period : ℕ) : ℚ :=
  let sma := smaD closes period
  (((closes.drop (closes.length - period)).map (fun x => (x - sma) ^ 2)).sum) / (period : ℚ)

/-- Source `calculate_bollinger_bands` (default period 20); `sqrtFn` models
the irrational `variance ** 0.5`. -/
def calculate_bollinger_bands (sqrtFn : ℚ → ℚ) (closes : List ℚ)
    (period : ℕ := 20) : BollingerRecord :=
  if closes.length < period then
    { upper := none, middle := none, lower := none, bandwidth := none }
  else
    let sma := smaD closes period
    let std_dev := sqrtFn (bollingerVariance closes period)
    let upper := sma + 2 * std_dev
    let lower := sma - 2 * std_dev
    let bandwidth : ℚ := if sma ≠ 0 then (upper - lower) / sma else 0
    { upper := some (round2 upper)
      middle := some (round2 sma)
      lower := some (round2 lower)
      bandwidth := some (round4 bandwidth) }

/-- Volume sequence of a historical series:
`[candle.get('volume', 0) for candle in historical_data['data']]`. -/
def volumesOf (h : HistoricalData) : List ℚ := h.data.map (fun c => c.volume.getD 0)

/-- Mean of the last 5 volumes: `sum(volumes[-5:]) / 5`. -/
def recentVolume (h : HistoricalData) : ℚ :=
  ((volumesOf h).drop ((volumesOf h).length - 5)).sum / 5

/-- Mean of the 15 volumes preceding the last 5: `sum(volumes[-20:-5]) / 15`. -/
def olderVolume (h : HistoricalData) : ℚ :=
  (((volumesOf h).drop ((volumesOf h).length - 20)).take 15).sum / 15

/-- Source `analyze_volume_trend`. -/
def analyze_volume_trend (h : HistoricalData) : String :=
  let volumes := volumesOf h
  if volumes.sum = 0 ∨ volumes.length < 20 then "neutral"
  else if olderVolume h = 0 then "neutral"
  else if recentVolume h > olderVolume h * 1.2 then "increasing"
  else if recentVolume h < olderVolume h * 0.8 then "decreasing"
  else "neutral"

/-- The indicator dictionary handed to `calculate_overall_signal` on the
non-empty path of `calculate_all_indicators`. -/
structure Indicators where
  current_price : ℚ
  moving_averages : MovingAverages
  rsi : RsiRecord
  macd : MacdRecord
  bollinger_bands : BollingerRecord
  volume_trend : String
deriving DecidableEq, Repr

/-- Source `calculate_overall_signal`. Python truthiness is kept:
`if indicators["rsi"]["value"]:` and `if ma["ema_12"] and ma["ema_26"]:`
skip the vote when the tested number is `None` or exactly `0`. -/
def calculate_overall_signal (ind : Indicators) : String :=
  let rsiVotes : List ℚ :=
    if truthy ind.rsi.value then
      if ind.rsi.signal = "oversold" then [1]
      else if ind.rsi.signal = "overbought" then [-1]
      else []
    else []
  let macdVotes : List ℚ :=
    if ind.macd.signal = "bullish" then [1]
    else if ind.macd.signal = "bearish" then [-1]
    else []
  let emaVotes : List ℚ :=
    if truthy ind.moving_averages.ema_12 && truthy ind.moving_averages.ema_26 then
      if ind.moving_averages.ema_12.getD 0 > ind.moving_averages.ema_26.getD 0
      then [1] else [-1]
    else []
  let signals := rsiVotes ++ macdVotes ++ emaVotes
  if signals = [] then "neutral"
  else
    let avg_signal := signals.sum / (signals.length : ℚ)
    if avg_signal > 0.3 then "bullish"
    else if avg_signal < -0.3 then "bearish"
    else "neutral"

/-- The dictionary returned by `calculate_all_indicators`. The empty-series
branch returns literal empty dicts for `moving_averages`, `macd` and
`bollinger_bands`; those are modelled as `none`. -/
structure AllIndicators where
  current_price : ℚ
  moving_averages : Option MovingAverages
  rsi : RsiRecord
  macd : Option MacdRecord
  bollinger_bands : Option BollingerRecord
  volume_trend : String
  overall_signal : String
deriving DecidableEq, Repr

/-- Source `calculate_all_indicators`. -/
def calculate_all_indicators (sqrtFn : ℚ → ℚ) (h : HistoricalData) : AllIndicators :=
  match get_closes h with
  | [] =>
    { current_price := 0
      moving_averages := none
      rsi := { value := none, signal := "neutral" }
      macd := none
      bollinger_bands := none
      volume_trend := "neutral"
      overall_signal := "neutral" }
  | c :: rest =>
    let closes := c :: rest
    let current_price := closes.getLast (List.cons_ne_nil c rest)
    let moving_averages := calculate_moving_averages closes
    let rsi := calculate_rsi closes
    let macd := calculate_macd closes
    let bollinger_bands := calculate_bollinger_bands sqrtFn closes
    let volume_trend := analyze_volume_trend h
    let ind : Indicators :=
      { current_price := current_price
        moving_averages := moving_averages
        rsi := rsi
        macd := macd
        bollinger_bands := bollinger_bands
        volume_trend := volume_trend }
    { current_price := current_price
      moving_averages := some moving_averages
      rsi := rsi
      macd := some macd
      bollinger_bands := some bollinger_bands
      volume_trend := volume_trend
      overall_signal := calculate_overall_signal ind }

/-! ## `unified_price_service.py` — class `UnifiedPriceService` -/

/-- The token-price dictionary produced by the price adapters and by
`get_token_price`'s metadata-only branch, restricted to the keys the
embedded code reads or writes. -/
structure TokenPriceResult where
  contract_address : String
  network : String
  name : String
  symbol : String
  decimals : Option ℕ
  logo : Option String
  current_price : Option ℚ
  price_change_24h : Option ℚ
  volume_24h : Option ℚ
  liquidity_usd : Option ℚ
  market_cap : Option ℚ
  last_updated : Option String
  source : String
  note : Option String
deriving DecidableEq, Repr

/-- The metadata dictionary returned by `AlchemyService.get_token_metadata`
(`symbol`/`name` default to `''`, `decimals`/`logo` may be `None`). -/
structure AlchemyMeta where
  symbol : String
  name : String
  decimals : Option ℕ
  logo : Option String
  contract_address : String
  last_updated : String
deriving DecidableEq, Repr

/-- Best-effort enrichment of a DeFiLlama result with Alchemy metadata
(`get_token_price`, try 2): on any metadata failure the data is returned
unchanged (`except Exception: pass`). -/
def enrichWithMetadata (data : TokenPriceResult)
    (alch : Except String AlchemyMeta) : TokenPriceResult :=
  match alch with
  | .ok m => { data with name := m.name, logo := m.logo, decimals := m.decimals }
  | .error _ => data

/-- The metadata-only result built in `get_token_price`, try 3. -/
def metadataOnlyResult (contract_address network : String)
    (m : AlchemyMeta) : TokenPriceResult :=
  { contract_address := contract_address
    network := network
    name := m.name
    symbol := m.symbol
    decimals := m.decimals
    logo := m.logo
    current_price := none
    price_change_24h := none
    volume_24h := none
    liquidity_usd := none
    market_cap := none
    last_updated := some m.last_updated
    source := "alchemy"
    note := some "Price data unavailable - metadata only" }

/-- Python `'; '.join(messages)`. -/
def joinMessages : List String → String
  | [] => ""
  | [m] => m
  | m :: rest => m ++ "; " ++ joinMessages rest

/-- The aggregated error raised when every source failed. -/
def allFailedMessage (contract_address network : String)
    (errors : List String) : String :=
  "All price sources failed for " ++ contract_address ++ " on " ++ network ++
    ". Errors: " ++ joinMessages errors

/-- Source `get_token_price`: strict ordered fallback
GeckoTerminal → DeFiLlama (with best-effort Alchemy enrichment) →
Alchemy metadata-only (when `include_metadata`), collecting per-source
error messages along the way. Adapter outcomes are explicit arguments. -/
def get_token_price (contract_address network : String)
    (gecko llama : Except String TokenPriceResult)
    (alch : Except String AlchemyMeta)
    (include_metadata : Bool) : Except String TokenPriceResult :=
  match gecko with
  | .ok data => .ok data
  | .error e1 =>
    let errors1 := ["GeckoTerminal failed: " ++ e1]
    match llama with
    | .ok data => .ok (if include_metadata then enrichWithMetadata data alch else data)
    | .error e2 =>
      let errors2 := errors1 ++ ["DeFiLlama failed: " ++ e2]
      if include_metadata then
        match alch with
        | .ok m => .ok (metadataOnlyResult contract_address network m)
        | .error e3 =>
          .error (allFailedMessage contract_address network
            (errors2 ++ ["Alchemy failed: " ++ e3]))
      else .error (allFailedMessage contract_address network errors2)

/-- One entry of `compare_sources`' per-source outcome dictionary. -/
structure SourceOutcome where
  success : Bool
  price : Option ℚ
  errorMsg : Option String
deriving DecidableEq, Repr

/-- Outcome entry for GeckoTerminal in `compare_sources`. -/
def geckoOutcome : Except String TokenPriceResult → SourceOutcome
  | .ok d => { success := true, price := d.current_price, errorMsg := none }
  | .error e => { success := false, price := none, errorMsg := some e }

/-- Outcome entry for DeFiLlama in `compare_sources`. -/
def llamaOutcome : Except String TokenPriceResult → SourceOutcome
  | .ok d => { success := true, price := d.current_price, errorMsg := none }
  | .error e => { success := false, price := none, errorMsg := some e }

/-- Outcome entry for Alchemy in `compare_sources`: on success the recorded
price is always `None` (metadata only). -/
def alchemyOutcome : Except String AlchemyMeta → SourceOutcome
  | .ok _ => { success := true, price := none, errorMsg := none }
  | .error e => { success := false, price := none, errorMsg := some e }

/-- The `results['sources']` dictionary of `compare_sources`, in insertion
order: geckoterminal, defillama, alchemy. -/
def compareSourcesOutcomes (gecko llama : Except String TokenPriceResult)
    (alch : Except String AlchemyMeta) : List (String × SourceOutcome) :=
  [("geckoterminal", geckoOutcome gecko),
   ("defillama", llamaOutcome llama),
   ("alchemy", alchemyOutcome alch)]

/-- The `price_analysis` sub-dictionary of `compare_sources`' result. -/
structure PriceAnalysis where
  prices : List (String × ℚ)
  average : ℚ
  max_deviation_percent : ℚ
  consistent : Bool
deriving DecidableEq, Repr

/-- Python `max` over a non-empty collection, folded left. -/
def listMax (x : ℚ) : List ℚ → ℚ
  | [] => x
  | y :: ys => listMax (max x y) ys

/-- Price-discrepancy computation at the end of `compare_sources`: collect
`(source, price)` for every successful outcome whose price `is not None`;
when two or more exist, report mean, maximum absolute percentage deviation
from the mean, and a consistency flag (`max_deviation < 5`). -/
def price_analysis (sources : List (String × SourceOutcome)) : Option PriceAnalysis :=
  let prices := sources.filterMap fun sd =>
    match sd.2.success, sd.2.price with
    | true, some p => some (sd.1, p)
    | _, _ => none
  if 1 < prices.length then
    let price_values := prices.map (·.2)
    let avg_price := price_values.sum / (price_values.length : ℚ)
    let deviations := price_values.map (fun p => |p - avg_price| / avg_price * 100)
    let max_deviation :=
      match deviations with
      | [] => 0
      | d :: ds => listMax d ds
    some { prices := prices
           average := avg_price
           max_deviation_percent := max_deviation
           consistent := decide (max_deviation < 5) }
  else none

/-! ## `portfolio_service.py` — class `PortfolioService` -/

/-- One quote-token entry as produced by `get_quote_token_data`: static
identification plus the outcome of `get_token_price` for that token. -/
structure QuoteOutcome where
  symbol : String
  pair : String
  contract : String
  result : Except String TokenPriceResult
deriving Repr

/-- Liquidity contribution of one successful result:
`data.get("liquidity_usd", 0) or 0` (both `None` and `0` count as `0`). -/
def liquidityOf (d : TokenPriceResult) : ℚ := d.liquidity_usd.getD 0

/-- Volume contribution of one successful result:
`data.get("volume_24h", 0) or 0`. -/
def volumeOf (d : TokenPriceResult) : ℚ := d.volume_24h.getD 0

/-- The `statistics` sub-dictionary of `get_portfolio_summary` (the
formatted `success_rate` string is presentation only and is omitted). -/
structure PortfolioStatistics where
  total_tokens : ℕ
  successful : ℕ
  failed : ℕ
  total_liquidity_usd : ℚ
  total_volume_24h_usd : ℚ
deriving DecidableEq, Repr

/-- Statistics reduction of `get_portfolio_summary`: count outcomes, then
accumulate liquidity and volume starting from the main token (when it
succeeded) and looping over the successful quote pairs. -/
def portfolio_summary_statistics (main : Except String TokenPriceResult)
    (quotes : List QuoteOutcome) : PortfolioStatistics :=
  let total_tokens := quotes.length + 1
  let successful :=
    (quotes.filter (fun q => q.result.isOk)).length +
      (if main.isOk then 1 else 0)
  let successful_pairs := quotes.filter (fun q => q.result.isOk)
  let mainLiquidity : ℚ := match main with | .ok d => 0 + liquidityOf d | .error _ => 0
  let mainVolume : ℚ := match main with | .ok d => 0 + volumeOf d | .error _ => 0
  let total_liquidity := successful_pairs.foldl
    (fun acc q => acc + (match q.result with | .ok d => liquidityOf d | .error _ => 0))
    mainLiquidity
  let total_volume := successful_pairs.foldl
    (fun acc q => acc + (match q.result with | .ok d => volumeOf d | .error _ => 0))
    mainVolume
  { total_tokens := total_tokens
    successful := successful
    failed := total_tokens - successful
    total_liquidity_usd := total_liquidity
    total_volume_24h_usd := total_volume }

/-! ## Spec-side definitions (for refinement comparisons)

These definitions follow the specification's wording, to be compared with
the source-embedded functions above. -/

/-- Spec, §4.3 SMA: "mean of the last `p` closes", written via `reverse`. -/
def smaSpecLastMean (closes : List ℚ) (p : ℕ) : ℚ :=
  (closes.reverse.take p).sum / (p : ℚ)

/-- Spec, §4.3 EMA recurrence: "iterate forward ... applying
`ema = (price - ema) * (2/(p+1)) + ema`", as explicit recursion. -/
def emaSpecGo (p : ℕ) : ℚ → List ℚ → ℚ
  | e, [] => e
  | e, price :: rest => emaSpecGo p ((price - e) * (2 / ((p : ℚ) + 1)) + e) rest

/-- Spec, §4.3 EMA: "Seed = SMA of the first `p` closes; then iterate
forward over closes index `p..n-1`". -/
def emaSpecSeeded (closes : List ℚ) (p : ℕ) : ℚ :=
  emaSpecGo p ((closes.take p).sum / (p : ℚ)) (closes.drop p)

/-- Spec, §4.3 overall signal, RSI vote: "+1 if oversold, −1 if overbought,
abstain if neutral or RSI is null". -/
def rsiVoteSpec (r : RsiRecord) : Option ℚ :=
  match r.value with
  | none => none
  | some _ =>
    if r.signal = "oversold" then some 1
    else if r.signal = "overbought" then some (-1)
    else none

/-- Spec, §4.3 overall signal, MACD vote: "+1 bullish, −1 bearish, abstain
if neutral". -/
def macdVoteSpec (m : MacdRecord) : Option ℚ :=
  if m.signal = "bullish" then some 1
  else if m.signal = "bearish" then some (-1)
  else none

/-- Spec, §4.3 overall signal, EMA-crossover vote: "+1 if EMA12>EMA26, −1
otherwise, abstain if either EMA is null". -/
def emaVoteSpec (ma : MovingAverages) : Option ℚ :=
  match ma.ema_12, ma.ema_26 with
  | some e12, some e26 => some (if e12 > e26 then 1 else -1)
  | _, _ => none

/-- Spec, §4.3 overall composite signal: average the cast votes; "bullish"
above 0.3, "bearish" below −0.3, else "neutral"; "neutral" with no votes. -/
def overallSignalSpec (ind : Indicators) : String :=
  let votes := [rsiVoteSpec ind.rsi, macdVoteSpec ind.macd,
    emaVoteSpec ind.moving_averages].filterMap id
  if votes = [] then "neutral"
  else
    let avg := votes.sum / (votes.length : ℚ)
    if avg > 0.3 then "bullish"
    else if avg < -0.3 then "bearish"
    else "neutral"

/-- The volume-trend rule exactly as the claim/spec states it (without the
source's extra `older_volume == 0` guard). -/
def volumeTrendClaimed (h : HistoricalData) : String :=
  if (volumesOf h).sum = 0 ∨ (volumesOf h).length < 20 then "neutral"
  else if recentVolume h > olderVolume h * 1.2 then "increasing"
  else if recentVolume h < olderVolume h * 0.8 then "decreasing"
  else "neutral"

/-- The volume-trend rule amended with the source's zero-older-mean guard. -/
def volumeTrendAmended (h : HistoricalData) : String :=
  if (volumesOf h).sum = 0 ∨ (volumesOf h).length < 20 ∨ olderVolume h = 0 then
    "neutral"
  else if recentVolume h > olderVolume h * 1.2 then "increasing"
  else if recentVolume h < olderVolume h * 0.8 then "decreasing"
  else "neutral"

/-- Main-token liquidity contribution per the spec: `liquidity_usd` treating
null as 0, counted only when the main lookup resolved. -/
def mainLiquidityContribution (main : Except String TokenPriceResult) : ℚ :=
  match main with
  | .ok d => liquidityOf d
  | .error _ => 0

/-- Quote-token liquidity contribution, null as 0, failures as 0. -/
def quoteLiquidityContribution (q : QuoteOutcome) : ℚ :=
  match q.result with
  | .ok d => liquidityOf d
  | .error _ => 0

/-- Spec, §4.4/§8: total liquidity is the sum over the main token (when
successful) plus every successfully resolved quote token. -/
def totalLiquiditySpec (main : Except String TokenPriceResult)
    (quotes : List QuoteOutcome) : ℚ :=
  mainLiquidityContribution main +
    ((quotes.filter (fun q => q.result.isOk)).map quoteLiquidityContribution).sum

/-! ## Helper lemmas -/

/-- Rounding to two decimals is monotone. -/
theorem round2_mono {x y : ℚ} (h : x ≤ y) : round2 x ≤ round2 y := by
  unfold round2
  have hr : round (x * 100) ≤ round (y * 100) := by
    rw [round_eq, round_eq]
    exact Int.floor_le_floor (by linarith)
  have hr' : ((round (x * 100) : ℤ) : ℚ) ≤ ((round (y * 100) : ℤ) : ℚ) :=
    Int.cast_le.mpr hr
  linarith

/-- Rounding to four decimals preserves nonnegativity. -/
theorem round4_nonneg {q : ℚ} (h : 0 ≤ q) : 0 ≤ round4 q := by
  unfold round4
  have hr : round ((0 : ℚ) * 10000) ≤ round (q * 10000) := by
    rw [round_eq, round_eq]
    exact Int.floor_le_floor (by linarith)
  simp only [zero_mul, round_zero] at hr
  have hr' : ((0 : ℤ) : ℚ) ≤ ((round (q * 10000) : ℤ) : ℚ) := Int.cast_le.mpr hr
  simp only [Int.cast_zero] at hr'
  linarith

/-- A left fold accumulating `f` over a list is the starting value plus the
sum of the mapped list. -/
theorem foldl_add_map {α : Type} (f : α → ℚ) (c : ℚ) (l : List α) :
    l.foldl (fun acc x => acc + f x) c = c + (l.map f).sum := by
  induction l generalizing c with
  | nil => simp
  | cons a t ih => simp [List.foldl_cons, ih (c + f a), add_assoc]

/-- The spec's explicit EMA recursion agrees with the source's left fold. -/
theorem emaSpecGo_eq_foldl (p : ℕ) (e : ℚ) (l : List ℚ) :
    emaSpecGo p e l = l.foldl (emaStep (2 / ((p : ℚ) + 1))) e := by
  induction l generalizing e with
  | nil => rfl
  | cons a t ih => simp [emaSpecGo, List.foldl_cons, ih, emaStep]

/-- Sum of the last `p` elements, read off either end of the list. -/
theorem sum_reverse_take (l : List ℚ) (p : ℕ) :
    (l.reverse.take p).sum = (l.drop (l.length - p)).sum := by
  rw [List.take_reverse, List.sum_reverse]

/-! ## Claim theorems -/

/-- C10: for a historical series with an empty candle list,
`calculate_all_indicators` returns (without any out-of-bounds access of the
last close) the record with `current_price = 0`, null RSI with signal
"neutral", empty moving-averages / MACD / Bollinger records, volume trend
"neutral" and overall signal "neutral" — for every square-root model. -/
theorem all_indicators_empty_series (sqrtFn : ℚ → ℚ) :
    calculate_all_indicators sqrtFn { data := [] } =
      { current_price := 0
        moving_averages := none
        rsi := { value := none, signal := "neutral" }
        macd := none
        bollinger_bands := none
        volume_trend := "neutral"
        overall_signal := "neutral" } := rfl

/-- C5: when both price adapters fail and the metadata-only adapter succeeds
(with the metadata fallback enabled), `get_token_price` succeeds with
`current_price = null`, source "alchemy" (the metadata-only provider), and a
non-empty note. -/
theorem get_token_price_metadata_fallback (addr net e1 e2 : String)
    (m : AlchemyMeta) :
    ∃ r, get_token_price addr net (.error e1) (.error e2) (.ok m) true = .ok r ∧
      r.current_price = none ∧ r.source = "alchemy" ∧
      r.note = some "Price data unavailable - metadata only" ∧
      "Price data unavailable - metadata only" ≠ "" :=
  ⟨metadataOnlyResult addr net m, rfl, rfl, rfl, rfl, by decide⟩

/-- C4: when all three adapters fail (with the metadata fallback enabled),
`get_token_price` fails with a single aggregated error whose message
contains each per-source failure message, in the order attempted:
GeckoTerminal first, DeFiLlama second, Alchemy third. -/
theorem get_token_price_all_failed_aggregates (addr net e1 e2 e3 : String) :
    ∃ s0 s1 s2 : String,
      get_token_price addr net (.error e1) (.error e2) (.error e3) true =
        .error (s0 ++ e1 ++ s1 ++ e2 ++ s2 ++ e3) := by
  refine ⟨"All price sources failed for " ++ addr ++ " on " ++ net ++
      ". Errors: " ++ "GeckoTerminal failed: ",
    "; " ++ "DeFiLlama failed: ", "; " ++ "Alchemy failed: ", ?_⟩
  show Except.error (allFailedMessage addr net
      ["GeckoTerminal failed: " ++ e1, "DeFiLlama failed: " ++ e2,
        "Alchemy failed: " ++ e3]) = _
  simp only [allFailedMessage, joinMessages, String.append_assoc]

/-- C2 (code-bug evidence): on 26 constant closes the MACD record is not
null as a unit despite the series having 26 closes: the Python truthiness
test `if signal_line else None` turns the exactly-zero signal line into
null while `macd_line` and `histogram` stay non-null. -/
theorem macd_nullables_not_a_unit_on_constant_series :
    calculate_macd (List.replicate 26 1) =
      { macd_line := some 0, signal_line := none, histogram := some 0,
        signal := "neutral" } := by
  norm_num [calculate_macd, macdPrefixValues, calculate_ema, emaD, emaStep,
    truthy, macdNull, round2, List.replicate, List.range', List.filterMap_cons]

/-- C3 (code-bug evidence): on an indicator set whose RSI value is exactly 0
with signal "oversold" (reachable: the RSI of a strictly decreasing 16-close
series is 0/"oversold", third conjunct), the source's
`calculate_overall_signal` abstains from the RSI vote because of the Python
truthiness test `if indicators["rsi"]["value"]:` and returns "neutral",
while the spec's voting rule casts the +1 vote and yields "bullish". -/
theorem overall_signal_drops_zero_rsi_vote :
    calculate_overall_signal
      ⟨1, ⟨none, none, none, none, none⟩, ⟨some 0, "oversold"⟩,
        ⟨none, none, none, "neutral"⟩, ⟨none, none, none, none⟩, "neutral"⟩ =
      "neutral" ∧
    overallSignalSpec
      ⟨1, ⟨none, none, none, none, none⟩, ⟨some 0, "oversold"⟩,
        ⟨none, none, none, "neutral"⟩, ⟨none, none, none, none⟩, "neutral"⟩ =
      "bullish" ∧
    calculate_rsi [16, 15, 14, 13, 12, 11, 10, 9, 8, 7, 6, 5, 4, 3, 2, 1] 14 =
      { value := some 0, signal := "oversold" } := by
  have h1 : ("neutral" : String) ≠ "bullish" := by decide
  have h2 : ("neutral" : String) ≠ "bearish" := by decide
  refine ⟨?_, ?_, ?_⟩
  · norm_num [calculate_overall_signal, truthy, h1, h2]
  · norm_num [overallSignalSpec, rsiVoteSpec, macdVoteSpec, emaVoteSpec, h1, h2,
      List.filterMap_cons, List.filterMap_nil]
  · norm_num [calculate_rsi, round2, truthy, List.zipWith, abs]

/-- C7: for every closes list and period `p ≥ 1`: below the window both SMA
and EMA are null; at or above it, SMA is the mean of the last `p` closes and
EMA is the documented seeded recurrence; and SMA(3) of `[1,2,3,4,5]` is 4. -/
theorem sma_ema_window_and_formulas (closes : List ℚ) (p : ℕ) (_hp : 1 ≤ p) :
    (closes.length < p →
      calculate_sma closes p = none ∧ calculate_ema closes p = none) ∧
    (p ≤ closes.length →
      calculate_sma closes p = some (smaSpecLastMean closes p) ∧
      calculate_ema closes p = some (emaSpecSeeded closes p)) ∧
    calculate_sma [1, 2, 3, 4, 5] 3 = some 4 := by
  refine ⟨fun hlt => ⟨?_, ?_⟩, fun hge => ⟨?_, ?_⟩, ?_⟩
  · simp [calculate_sma, hlt]
  · simp [calculate_ema, hlt]
  · simp only [calculate_sma, smaD, smaSpecLastMean, sum_reverse_take]
    rw [if_neg (Nat.not_lt.mpr hge)]
  · simp only [calculate_ema, emaD, emaSpecSeeded, emaSpecGo_eq_foldl]
    rw [if_neg (Nat.not_lt.mpr hge)]
  · norm_num [calculate_sma, smaD]

/-- C7 witness: the theorem instantiated at closes `[1,2,3,4,5]`, `p = 3`. -/
theorem sma_ema_window_and_formulas_witness :
    (([1, 2, 3, 4, 5] : List ℚ).length < 3 →
      calculate_sma [1, 2, 3, 4, 5] 3 = none ∧
      calculate_ema [1, 2, 3, 4, 5] 3 = none) ∧
    (3 ≤ ([1, 2, 3, 4, 5] : List ℚ).length →
      calculate_sma [1, 2, 3, 4, 5] 3 = some (smaSpecLastMean [1, 2, 3, 4, 5] 3) ∧
      calculate_ema [1, 2, 3, 4, 5] 3 = some (emaSpecSeeded [1, 2, 3, 4, 5] 3)) ∧
    calculate_sma [1, 2, 3, 4, 5] 3 = some 4 :=
  sma_ema_window_and_formulas [1, 2, 3, 4, 5] 3 (by norm_num)

/-- C8: the portfolio summary's `total_liquidity_usd` statistic equals the
sum (null as 0) of `liquidity_usd` over the main-token result when it
resolved successfully plus every successfully resolved quote token. -/
theorem portfolio_total_liquidity_eq_spec_sum
    (main : Except String TokenPriceResult) (quotes : List QuoteOutcome) :
    (portfolio_summary_statistics main quotes).total_liquidity_usd =
      totalLiquiditySpec main quotes := by
  cases main with
  | ok d =>
    show (quotes.filter (fun q => q.result.isOk)).foldl
        (fun acc q => acc + quoteLiquidityContribution q) (0 + liquidityOf d) =
      totalLiquiditySpec (.ok d) quotes
    rw [foldl_add_map]
    simp [totalLiquiditySpec, mainLiquidityContribution]
  | error e =>
    show (quotes.filter (fun q => q.result.isOk)).foldl
        (fun acc q => acc + quoteLiquidityContribution q) 0 =
      totalLiquiditySpec (.error e) quotes
    rw [foldl_add_map]
    simp [totalLiquiditySpec, mainLiquidityContribution]

/-- C6 counterexample: 20 candles whose first 19 volumes are 0 and whose
last volume is 5. Total volume is 5 ≠ 0 and there are 20 candles, and the
recent mean (1) exceeds 1.2 × the older mean (0), so the claimed rule says
"increasing" — but the source's extra `older_volume == 0` guard returns
"neutral". -/
theorem volume_trend_zero_older_mean_counterexample :
    analyze_volume_trend ⟨List.replicate 19 ⟨1, some 0⟩ ++ [⟨1, some 5⟩]⟩ =
      "neutral" ∧
    volumeTrendClaimed ⟨List.replicate 19 ⟨1, some 0⟩ ++ [⟨1, some 5⟩]⟩ =
      "increasing" := by
  constructor <;>
    norm_num [analyze_volume_trend, volumeTrendClaimed, volumesOf,
      recentVolume, olderVolume, List.replicate]

/-- C6 as amended: the volume trend equals the claimed rule with one extra
"neutral" case, a zero mean of the 15 volumes preceding the last 5. -/
theorem analyze_volume_trend_eq_amended (h : HistoricalData) :
    analyze_volume_trend h = volumeTrendAmended h := by
  simp only [analyze_volume_trend, volumeTrendAmended]
  split_ifs <;> first | rfl | tauto

/-- C9 as amended: for every series with at least 20 closes, nonzero
variance and a nonnegative square-root model, the Bollinger bands satisfy
`upper ≥ middle ≥ lower`; `bandwidth ≥ 0` holds additionally whenever the
20-period SMA is nonnegative. -/
theorem bollinger_bands_ordered_when_mean_nonneg (sqrtFn : ℚ → ℚ)
    (closes : List ℚ) (h20 : 20 ≤ closes.length)
    (_hvar : bollingerVariance closes 20 ≠ 0)
    (hs : 0 ≤ sqrtFn (bollingerVariance closes 20)) :
    ∃ u m l bw, calculate_bollinger_bands sqrtFn closes 20 =
        { upper := some u, middle := some m, lower := some l,
          bandwidth := some bw } ∧
      l ≤ m ∧ m ≤ u ∧ (0 ≤ smaD closes 20 → 0 ≤ bw) := by
  simp only [calculate_bollinger_bands]
  rw [if_neg (by omega)]
  refine ⟨_, _, _, _, rfl, ?_, ?_, ?_⟩
  · exact round2_mono (by linarith)
  · exact round2_mono (by linarith)
  · intro hm
    by_cases hz : smaD closes 20 = 0
    · simp only [hz, ne_eq, not_true_eq_false, if_false]
      simp [round4]
    · rw [if_pos hz]
      apply round4_nonneg
      have hpos : 0 < smaD closes 20 := lt_of_le_of_ne hm (Ne.symm hz)
      have h4s : smaD closes 20 + 2 * sqrtFn (bollingerVariance closes 20) -
          (smaD closes 20 - 2 * sqrtFn (bollingerVariance closes 20)) =
          4 * sqrtFn (bollingerVariance closes 20) := by ring
      rw [h4s]
      positivity

/-- C9 counterexample: 20 closes with mean −2 and variance exactly 1 (so the
constant-1 square-root model is the true nonnegative root). The code's
bandwidth `(upper − lower)/middle` is −2 < 0, refuting "bandwidth ≥ 0" as
claimed for every ≥20-length nonzero-variance series. -/
theorem bollinger_bandwidth_negative_counterexample :
    ((0 : ℚ) ≤ 1 ∧
      (1 : ℚ) ^ 2 =
        bollingerVariance (List.replicate 10 (-1) ++ List.replicate 10 (-3)) 20 ∧
      bollingerVariance (List.replicate 10 (-1) ++ List.replicate 10 (-3)) 20 ≠ 0) ∧
    (calculate_bollinger_bands (fun _ => 1)
        (List.replicate 10 (-1) ++ List.replicate 10 (-3)) 20).bandwidth =
      some (-2) ∧
    ¬(0 : ℚ) ≤ -2 := by
  refine ⟨⟨by norm_num, ?_, ?_⟩, ?_, by norm_num⟩
  · norm_num [bollingerVariance, smaD, List.replicate]
  · norm_num [bollingerVariance, smaD, List.replicate]
  · norm_num [calculate_bollinger_bands, bollingerVariance, smaD, round2, round4,
      List.replicate, round_eq]

/-- C9 witness: the amended theorem applied to 20 concrete closes (ten 1s,
ten 3s; mean 2, variance 1) with the exact square-root model. -/
theorem bollinger_bands_ordered_witness :
    ∃ u m l bw, calculate_bollinger_bands (fun _ => 1)
        (List.replicate 10 1 ++ List.replicate 10 3) 20 =
        { upper := some u, middle := some m, lower := some l,
          bandwidth := some bw } ∧
      l ≤ m ∧ m ≤ u ∧
      (0 ≤ smaD (List.replicate 10 1 ++ List.replicate 10 3) 20 → 0 ≤ bw) :=
  bollinger_bands_ordered_when_mean_nonneg (fun _ => 1)
    (List.replicate 10 1 ++ List.replicate 10 3)
    (by norm_num [List.replicate])
    (by norm_num [bollingerVariance, smaD, List.replicate])
    (by norm_num)

/-- C1 as amended: whenever the two price adapters succeed with prices 100
and 104 (in either order) — the metadata-only source never contributes a
price — the `price_analysis` reports average 102, maximum deviation
100/51 ≈ 1.96 % (not ≈ 3.92 %), and `consistent = true`. -/
theorem compare_sources_two_price_analysis
    (g l : TokenPriceResult) (a : Except String AlchemyMeta)
    (hp : (g.current_price = some 100 ∧ l.current_price = some 104) ∨
          (g.current_price = some 104 ∧ l.current_price = some 100)) :
    ∃ pa, price_analysis (compareSourcesOutcomes (.ok g) (.ok l) a) = some pa ∧
      pa.average = 102 ∧ pa.max_deviation_percent = 100 / 51 ∧
      pa.consistent = true := by
  rcases hp with ⟨hg, hl⟩ | ⟨hg, hl⟩
  · cases a <;>
      exact ⟨⟨[("geckoterminal", 100), ("defillama", 104)], 102, 100 / 51, true⟩,
        by norm_num [price_analysis, compareSourcesOutcomes, geckoOutcome,
          llamaOutcome, alchemyOutcome, hg, hl, listMax, abs_of_nonpos,
          abs_of_nonneg, decide_eq_true_eq, List.filterMap_cons,
          List.filterMap_nil],
        rfl, rfl, rfl⟩
  · cases a <;>
      exact ⟨⟨[("geckoterminal", 104), ("defillama", 100)], 102, 100 / 51, true⟩,
        by norm_num [price_analysis, compareSourcesOutcomes, geckoOutcome,
          llamaOutcome, alchemyOutcome, hg, hl, listMax, abs_of_nonpos,
          abs_of_nonneg, decide_eq_true_eq, List.filterMap_cons,
          List.filterMap_nil],
        rfl, rfl, rfl⟩

/-- C1 witness: the amended theorem applied to concrete adapter results with
prices 100 and 104 and a failing metadata source. -/
theorem compare_sources_two_price_analysis_witness :
    ∃ pa, price_analysis (compareSourcesOutcomes
        (.ok ⟨"0xabc", "polygon", "TokenA", "TKA", none, none, some 100, none,
          none, none, none, none, "geckoterminal", none⟩)
        (.ok ⟨"0xabc", "polygon", "TokenA", "TKA", none, none, some 104, none,
          none, none, none, none, "defillama", none⟩)
        (.error "Alchemy API error: boom")) = some pa ∧
      pa.average = 102 ∧ pa.max_deviation_percent = 100 / 51 ∧
      pa.consistent = true :=
  compare_sources_two_price_analysis _ _ _ (Or.inl ⟨rfl, rfl⟩)

/-- C1 counterexample: at prices 100 and 104 the computed maximum deviation
is exactly 100/51 ≈ 1.96, which is not within 1 percentage point of the
claimed ≈ 3.92 (average 102 and consistency do hold). -/
theorem compare_sources_max_deviation_not_392 :
    (∃ pa, price_analysis (compareSourcesOutcomes
        (.ok ⟨"0xdef", "polygon", "TokenB", "TKB", none, none, some 100, none,
          none, none, none, none, "geckoterminal", none⟩)
        (.ok ⟨"0xdef", "polygon", "TokenB", "TKB", none, none, some 104, none,
          none, none, none, none, "defillama", none⟩)
        (.error "Alchemy API error: down")) = some pa ∧
      pa.average = 102 ∧ pa.consistent = true ∧
      pa.max_deviation_percent = 100 / 51) ∧
    ¬|(100 : ℚ) / 51 - 392 / 100| < 1 := by
  constructor
  · exact ⟨⟨[("geckoterminal", 100), ("defillama", 104)], 102, 100 / 51, true⟩,
      by norm_num [price_analysis, compareSourcesOutcomes, geckoOutcome,
        llamaOutcome, alchemyOutcome, listMax, abs_of_nonpos, abs_of_nonneg,
        decide_eq_true_eq, List.filterMap_cons, List.filterMap_nil],
      rfl, rfl, rfl⟩
  · rw [abs_of_nonpos (by norm_num)]
    norm_num

end CoinAnalysis
